import Mathlib

set_option linter.unusedVariables false

/-!
Shallow embedding of the mod-acquisition core of the repository
(`SteamCmdManager` in src/unnamed/part_003, configuration in
src/unnamed/part_000).

Modelling conventions:
* The filesystem is an oracle `Fs`: `entry` says what (if anything) sits at a
  path, `ioErr` says whether a probe at that path raises an I/O error.
  `fs.statSync(p).isDirectory()` is `statSyncIsDir` (throws — `none` — when the
  path is absent or `ioErr`); `fs.existsSync(p)` is `existsSyncB` (Node's
  `existsSync` swallows errors and returns `false`).
* Paths are joined with the Windows separator, matching the configured paths.
* The HTML search of `findModByName` keeps its control flow; the block-regex
  match over the response body is an oracle field `blockMatch` of the search
  world (a total function of body and name), while the numeric-id extraction
  `/filedetails\/\?id=(\d+)/` is implemented concretely (`urlMatchId`).
* Subprocess invocation (`exec`) is an oracle indexed by the attempt number;
  `downloadMod` returns its result together with the number of `exec`
  invocations performed and the list of `setTimeout` delays taken.
* `fs.promises.writeFile` of the two audit files can reject (`OrchWorld.
  writeFail`); a rejection propagates out of `analyzeMods` into the generic
  catch. On runs where both writes succeed, the written (path, content) pairs
  are recorded in the run trace.
* The block-regex match of `findModByName` can throw (the unescaped name is
  embedded in `new RegExp`): `SearchWorld.blockMatch` returns `Except`, and
  the `.error` case is routed through the source's catch (log + reject).
* Promise resolution is `DlResult.resolved`; rejection carries the rejection
  reason's `.message` string.
-/

/-! ## Configuration (src/unnamed/part_000) -/

def steamCmdPath : String := "C:\\Games\\steamCMD\\steamcmd.exe"

def modsDirectory : String := "C:\\Program Files (x86)\\RimWorld\\Mods"

def rimworldAppId : String := "294100"

/-- `path.join` for the configured Windows-style paths. -/
def pathJoin (a b : String) : String := a ++ "\\" ++ b

/-- `path.dirname` on a backslash-separated path: everything before the last
separator. -/
def dirname (p : String) : String :=
  String.mk (((p.toList.reverse.dropWhile (fun c => c != '\\')).drop 1).reverse)

def steamCmdDir : String := dirname steamCmdPath

/-- `<toolDir>/steamapps/workshop/content/<appId>` (constructor, part_003 line 14). -/
def workshopDir : String :=
  pathJoin (pathJoin (pathJoin (pathJoin steamCmdDir "steamapps") "workshop") "content") rimworldAppId

/-- Where a freshly downloaded payload lands relative to the install dir
(part_003 line 221). -/
def dlPayloadPath (steamId : String) : String :=
  pathJoin (pathJoin (pathJoin (pathJoin (pathJoin modsDirectory "steamapps") "workshop") "content") rimworldAppId) steamId

/-- Basename of `missing_mods.txt` (the `__dirname` part is elided). -/
def missingModsFile : String := "missing_mods.txt"

/-- Basename of `not_found_mods.txt` (the `__dirname` part is elided). -/
def notFoundModsFile : String := "not_found_mods.txt"

/-! ## JS string helpers -/

/-- JS `String.prototype.toLowerCase` (ASCII-adequate model). -/
def jsToLower (s : String) : String := String.mk (s.toList.map Char.toLower)

/-- Whether `needle` occurs as a contiguous segment of `hay`. -/
def listContainsSeg (needle : List Char) : List Char → Bool
  | [] => needle.isEmpty
  | c :: rest => needle.isPrefixOf (c :: rest) || listContainsSeg needle rest

/-- JS `String.prototype.includes`. -/
def jsIncludes (s marker : String) : Bool := listContainsSeg marker.toList s.toList

/-! ## Filesystem model -/

inductive EntryKind where
  | dir
  | file
deriving DecidableEq

structure Fs where
  entry : String → Option EntryKind
  ioErr : String → Bool

/-- `fs.statSync(p).isDirectory()`: `none` means the call threw (absent path
or I/O error), `some b` the boolean answer. -/
def statSyncIsDir (fs : Fs) (p : String) : Option Bool :=
  if fs.ioErr p then none
  else
    match fs.entry p with
    | none => none
    | some k => some (k == EntryKind.dir)

/-- `fs.existsSync(p)`: swallows errors and returns `false` on them. -/
def existsSyncB (fs : Fs) (p : String) : Bool :=
  if fs.ioErr p then false else (fs.entry p).isSome

/-- part_003 lines 111-121: `statSync` on `<modsDirectory>/<steamId>`,
`isDirectory()`, any throw caught and turned into `false`. `modId` is taken
but unused for the probe, as in the source. -/
def isModInstalled (fs : Fs) (modId steamId : String) : Bool :=
  match statSyncIsDir fs (pathJoin modsDirectory steamId) with
  | none => false
  | some b => b

/-- part_003 lines 128-136: `existsSync` on `<workshopDir>/<steamId>`, with a
catch-all returning `false`. -/
def isModInSteamCmd (fs : Fs) (steamId : String) : Bool :=
  existsSyncB fs (pathJoin workshopDir steamId)

/-- The spec's ClassificationResult, realised by the code's probe combination
(part_003 lines 314-322 and 148-155). -/
inductive ModState where
  | installed
  | cachedUncopied
  | missing
deriving DecidableEq

def classify (fs : Fs) (modId steamId : String) : ModState :=
  if isModInstalled fs modId steamId then .installed
  else if isModInSteamCmd fs steamId then .cachedUncopied
  else .missing

/-! ## Identifier resolver (findModByName, part_003 lines 54-103) -/

inductive HttpOutcome where
  | reqError (msg : String)
  | body (data : String)

def HttpOutcome.isReqError : HttpOutcome → Bool
  | .reqError _ => true
  | _ => false

/-- One run's network behaviour for one searched name: the HTTPS outcome and
the result of the block-regex match step over the body. The match step can
THROW (`.error msg`, carrying the thrown error's message): the searched name
is embedded unescaped into `new RegExp(...)` (part_003 lines 68-69), whose
construction throws on names that are invalid regex syntax (e.g. an
unbalanced parenthesis); the surrounding try/catch (lines 89-94) logs and
REJECTS the promise on such a throw. `.ok none` is "no block matched",
`.ok (some block)` the matched block text. -/
structure SearchWorld where
  http : HttpOutcome
  blockMatch : String → String → Except String (Option String)

/-- One `errorLogger.logError(id, name, msg)` call. -/
structure LogEntry where
  id : String
  name : String
  msg : String
deriving DecidableEq

inductive FindResult where
  | found (id : String)
  | notFound
  | rejected (msg : String)
deriving DecidableEq

def FindResult.isFound : FindResult → Bool
  | .found _ => true
  | _ => false

def FindResult.isRejected : FindResult → Bool
  | .rejected _ => true
  | _ => false

def idMarker : List Char := "filedetails/?id=".toList

/-- Leftmost match of `/filedetails\/\?id=(\d+)/`: the first position where
the literal is followed by at least one digit; the capture is the maximal
digit run. -/
def urlMatchAux : List Char → Option String
  | [] => none
  | c :: rest =>
    if idMarker.isPrefixOf (c :: rest) then
      let ds := ((c :: rest).drop idMarker.length).takeWhile Char.isDigit
      if ds.isEmpty then urlMatchAux rest else some (String.mk ds)
    else urlMatchAux rest

def urlMatchId (s : String) : Option String := urlMatchAux s.toList

structure FindOut where
  result : FindResult
  logs : List LogEntry
  httpCalls : Nat
deriving DecidableEq

/-- part_003 lines 54-103. One `https.get`; on request error, reject and log;
on a body: the block-match step, whose THROW is caught at lines 89-94 (one
log, then `reject(error)` — the raw error propagates); otherwise id
extraction, resolving `null` (NotFound) with one log when no block matched or
no id could be extracted, and the id with no log when both succeed. -/
def findModByName (sw : SearchWorld) (modName : String) : FindOut :=
  match sw.http with
  | .reqError emsg =>
    { result := .rejected ("Ошибка при запросе к Steam Workshop: " ++ emsg),
      logs := [⟨"0", modName, "Ошибка при запросе к Steam Workshop: " ++ emsg⟩],
      httpCalls := 1 }
  | .body data =>
    match sw.blockMatch data modName with
    | .error em =>
      { result := .rejected em,
        logs := [⟨"0", modName, "Ошибка при поиске мода \"" ++ modName ++ "\": " ++ em⟩],
        httpCalls := 1 }
    | .ok (some block) =>
      match urlMatchId block with
      | some fid => { result := .found fid, logs := [], httpCalls := 1 }
      | none =>
        { result := .notFound,
          logs := [⟨"0", modName, "Не удалось извлечь ID мода \"" ++ modName ++ "\" из URL"⟩],
          httpCalls := 1 }
    | .ok none =>
      { result := .notFound,
        logs := [⟨"0", modName, "Мод \"" ++ modName ++ "\" не найден в результатах поиска"⟩],
        httpCalls := 1 }

/-! ## Acquisition driver (downloadMod, part_003 lines 144-276) -/

/-- One mod triple `[modId, steamId, modName]`. -/
structure ModItem where
  modId : String
  steamId : String
  name : String
deriving DecidableEq

/-- Result of one `exec` of the SteamCMD command: `fail` when the callback
gets a non-null `error`, `ok` with the captured stdout otherwise. -/
inductive ExecResult where
  | fail (msg : String) (errOut : String)
  | ok (stdout : String) (errOut : String)

/-- The driver's environment, indexed by the attempt number (0-based): the
filesystem as seen by that attempt, the subprocess outcome, `cpSync src dst`
(`none` = success, `some m` = threw with message m) and `mkdirSync` of the
mods directory. -/
structure DmWorld where
  fsAt : Nat → Fs
  execAt : Nat → ExecResult
  cpAt : Nat → String → String → Option String
  mkdirAt : Nat → Option String

inductive DlResult where
  | resolved
  | rejected (msg : String)
deriving DecidableEq

inductive AttemptOut where
  | done (r : DlResult)
  | failRetryable (msg : String)
deriving DecidableEq

def AttemptOut.isRetryFail : AttemptOut → Bool
  | .failRetryable _ => true
  | _ => false

def failMsgOf : AttemptOut → String
  | .failRetryable m => m
  | .done _ => ""

/-- The `setTimeout` delay between attempts (part_003 lines 204-208), ms. -/
def retryDelayMs : Nat := 2000

/-- `if (!fs.existsSync(this.modsDirectory)) fs.mkdirSync(...)`. -/
def ensureModsDir (fs : Fs) (w : DmWorld) (i : Nat) : Option String :=
  if existsSyncB fs modsDirectory then none else w.mkdirAt i

def noMarkerMsg (m : ModItem) : String :=
  "Не удалось скачать мод " ++ m.name ++ " (" ++ m.steamId ++ ")"

def payloadMissingMsg (m : ModItem) : String :=
  "Мод " ++ m.name ++ " (" ++ m.steamId ++ ") не найден в директории после скачивания"

/-- One attempt of `downloadMod` (one pass through part_003 lines 148-273),
without the retry plumbing: its outcome (terminal, or a retryable failure
carrying the message the final attempt would reject with) and its number of
`exec` invocations. Retryable failures are exactly: `exec` error, output
without the `Success` marker, and payload absent despite the marker. Copy and
mkdir failures reject immediately (`.done`). -/
def attempt (w : DmWorld) (m : ModItem) (i : Nat) : AttemptOut × Nat :=
  let fs := w.fsAt i
  if isModInstalled fs m.modId m.steamId then (.done .resolved, 0)
  else if isModInSteamCmd fs m.steamId then
    match ensureModsDir fs w i with
    | some e => (.done (.rejected e), 0)
    | none =>
      match w.cpAt i (pathJoin workshopDir m.steamId) (pathJoin modsDirectory m.steamId) with
      | some e => (.done (.rejected e), 0)
      | none => (.done .resolved, 0)
  else
    match ensureModsDir fs w i with
    | some e => (.done (.rejected e), 0)
    | none =>
      match w.execAt i with
      | .fail emsg _ => (.failRetryable emsg, 1)
      | .ok stdout _ =>
        if jsIncludes stdout "Success" then
          if existsSyncB fs (dlPayloadPath m.steamId) then
            match w.cpAt i (dlPayloadPath m.steamId) (pathJoin modsDirectory m.steamId) with
            | some e => (.done (.rejected e), 1)
            | none => (.done .resolved, 1)
          else (.failRetryable (payloadMissingMsg m), 1)
        else (.failRetryable (noMarkerMsg m), 1)

/-- A single attempt when no retries remain (`retryCount <= 1`). -/
def singleShot (w : DmWorld) (m : ModItem) (i : Nat) : DlResult × Nat × List Nat :=
  match attempt w m i with
  | (.done r, c) => (r, c, [])
  | (.failRetryable emsg, c) => (.rejected emsg, c, [])

/-- part_003 lines 144-276ature: `downloadMod(mod, retryCount)` starting at
attempt index `i`; returns (promise outcome, exec invocations, delays taken).
When `retryCount > 1` and the attempt fails retryably, waits `retryDelayMs`
and restarts from the top with `retryCount - 1`. -/
def downloadMod (w : DmWorld) (m : ModItem) : Nat → Nat → DlResult × Nat × List Nat
  | 0, i => singleShot w m i
  | 1, i => singleShot w m i
  | n + 2, i =>
    match attempt w m i with
    | (.done r, c) => (r, c, [])
    | (.failRetryable _, c) =>
      let rest := downloadMod w m (n + 1) (i + 1)
      (rest.1, c + rest.2.1, retryDelayMs :: rest.2.2)

/-! ## Orchestrator (analyzeMods and downloadMods, part_003 lines 283-461) -/

def coreModNames : List String := ["Core", "RimWorld", "RimWorldCore", "GameCore"]

/-- `coreModNames.some(name => modName?.toLowerCase() === name.toLowerCase())`. -/
def isCoreName (s : String) : Bool :=
  coreModNames.any (fun n => jsToLower s == jsToLower n)

/-- The whole run's environment: a search world per searched name, the
filesystem the analysis probes, the confirmation answer, a driver world per
missing-list position, and the outcome of each `fs.promises.writeFile` by
target path (`none` = the write resolves, `some m` = it rejects with message
`m`). -/
structure OrchWorld where
  search : String → SearchWorld
  fs : Fs
  answer : String
  dmw : Nat → DmWorld
  writeFail : String → Option String

/-- Accumulators of `analyzeMods`: the processed items (steamIds bound in
place on resolution, as the source mutates `mod[1]`), the missing and
not-found buckets, the items that reached the classifier probes, and the
names sent to the resolver. All in input order. -/
structure AnalyzeAcc where
  items : List ModItem
  missing : List ModItem
  notFound : List ModItem
  probed : List ModItem
  resolverCalls : List String
deriving DecidableEq

/-- part_003 lines 313-322: probe the (possibly freshly bound) steamId and
push to `missingMods` when neither probe finds it. -/
def classifyCont (fs : Fs) (m : ModItem) (a : AnalyzeAcc) : AnalyzeAcc :=
  let inst := isModInstalled fs m.modId m.steamId
  let inCmd := isModInSteamCmd fs m.steamId
  { a with
    items := m :: a.items,
    probed := m :: a.probed,
    missing := if !inst && !inCmd then m :: a.missing else a.missing }

/-- part_003 lines 289-323 (the per-item loop of `analyzeMods`). Core names
are skipped outright; a `"0"` steamId goes to the resolver, whose rejection
propagates (`Except.error`); NotFound puts the item in `notFound` and skips
classification; otherwise the item is classified. -/
def analyzeModsLoop (w : OrchWorld) : List ModItem → Except String AnalyzeAcc
  | [] => .ok ⟨[], [], [], [], []⟩
  | m :: rest =>
    if isCoreName m.name then
      match analyzeModsLoop w rest with
      | .error e => .error e
      | .ok a => .ok { a with items := m :: a.items }
    else if m.steamId = "0" then
      match (findModByName (w.search m.name) m.name).result with
      | .rejected emsg => .error emsg
      | .notFound =>
        match analyzeModsLoop w rest with
        | .error e => .error e
        | .ok a =>
          .ok { a with
                items := m :: a.items,
                notFound := m :: a.notFound,
                resolverCalls := m.name :: a.resolverCalls }
      | .found fid =>
        match analyzeModsLoop w rest with
        | .error e => .error e
        | .ok a =>
          .ok (classifyCont w.fs { m with steamId := fid }
                { a with resolverCalls := m.name :: a.resolverCalls })
    else
      match analyzeModsLoop w rest with
      | .error e => .error e
      | .ok a => .ok (classifyCont w.fs m a)

/-- One `{id, name, success, skipped?, reason?, error?}` result object.
Absent (`undefined`) fields are `false` / `none`. -/
structure Outcome where
  id : String
  name : String
  success : Bool
  skipped : Bool
  reason : Option String
  error : Option String
deriving DecidableEq

def skipOutcome (m : ModItem) : Outcome :=
  ⟨m.modId, m.name, true, true, some "Уже установлен", none⟩

def cancelOutcome (m : ModItem) : Outcome :=
  ⟨m.modId, m.name, false, false, none, some "Загрузка отменена пользователем"⟩

def genericErrOutcome (m : ModItem) : Outcome :=
  ⟨m.modId, m.name, false, false, none, some "Общая ошибка загрузки"⟩

def dlOkOutcome (m : ModItem) : Outcome := ⟨m.modId, m.name, true, false, none, none⟩

def dlFailOutcome (m : ModItem) (e : String) : Outcome := ⟨m.modId, m.name, false, false, none, some e⟩

structure Report where
  success : Bool
  results : List Outcome
deriving DecidableEq

/-- Observable side effects of a run: `exec` invocations, names resolved over
the network, items that reached the classifier probes, mods handed to
`downloadMod`, whether the confirmation prompt was shown, and the audit-file
writes (path, full new content). -/
structure RunTrace where
  execCount : Nat
  resolverCalls : List String
  probed : List ModItem
  dlCalls : List ModItem
  prompted : Bool
  auditWrites : List (String × String)
deriving DecidableEq

def missingHeader : String := "Отсутствующие моды:"

def notFoundHeader : String := "Моды, не найденные в Steam Workshop:"

def dashRule : String := String.mk (List.replicate 40 '-')

def eqRule : String := String.mk (List.replicate 80 '=')

/-- One item's block in an audit file (part_003 lines 342-344). -/
def modBlock (m : ModItem) : String :=
  "Мод: " ++ m.name ++ "\nID: " ++ m.modId ++ "\nSteam ID: " ++ m.steamId ++ "\n" ++ dashRule

/-- The content `writeModsToFile` builds (part_003 lines 339-346). -/
def renderModsFile (header : String) (mods : List ModItem) : String :=
  String.intercalate "\n"
    ([header, eqRule] ++ mods.map modBlock ++ ["\nВсего модов: " ++ toString mods.length ++ "\n"])

/-- `writeModsToFile` (part_003 lines 338-349): renders the content and
awaits `fs.promises.writeFile`, which can reject; on success the written
content is returned. -/
def writeModsToFile (w : OrchWorld) (filePath : String) (mods : List ModItem)
    (header : String) : Except String String :=
  match w.writeFail filePath with
  | some e => .error e
  | none => .ok (renderModsFile header mods)

/-- part_003 lines 283-330: the per-item loop, then the two awaited audit
writes (lines 326-327). A rejection of either write propagates out of
`analyzeMods`, exactly like a resolver rejection. -/
def analyzeMods (w : OrchWorld) (mods : List ModItem) : Except String AnalyzeAcc :=
  match analyzeModsLoop w mods with
  | .error e => .error e
  | .ok a =>
    match writeModsToFile w missingModsFile a.missing missingHeader with
    | .error e => .error e
    | .ok _ =>
      match writeModsToFile w notFoundModsFile a.notFound notFoundHeader with
      | .error e => .error e
      | .ok _ => .ok a

/-- The confirmed-download loop (part_003 lines 412-433): one `downloadMod`
with the default retryCount 3 per missing item, a success or failure outcome
each, failures caught per item. Returns (outcomes, total exec count). -/
def dlLoop (w : OrchWorld) : Nat → List ModItem → List Outcome × Nat
  | _, [] => ([], 0)
  | idx, m :: rest =>
    let d := downloadMod (w.dmw idx) m 3 0
    let o := match d.1 with
      | .resolved => dlOkOutcome m
      | .rejected e => dlFailOutcome m e
    let r := dlLoop w (idx + 1) rest
    (o :: r.1, d.2.1 + r.2)

/-- part_003 lines 356-461. Four return paths: analysis failure (the generic
catch, reached by a resolver rejection or an audit-write rejection), empty
missing set, user decline, and the confirmed download loop with skipped
outcomes appended for items whose localId is in no missing item. On the
generic-catch path the trace's `auditWrites` is `[]`: a write that succeeded
before the aborting failure is not tracked (no claim observes it); on the
other paths both audit writes succeeded and are recorded. -/
def downloadMods (w : OrchWorld) (mods : List ModItem) : Report × RunTrace :=
  match analyzeMods w mods with
  | .error _ =>
    ({ success := false, results := mods.map genericErrOutcome },
     { execCount := 0, resolverCalls := [], probed := [], dlCalls := [],
       prompted := false, auditWrites := [] })
  | .ok a =>
    let writes := [(missingModsFile, renderModsFile missingHeader a.missing),
                   (notFoundModsFile, renderModsFile notFoundHeader a.notFound)]
    if a.missing.isEmpty then
      ({ success := true, results := a.items.map skipOutcome },
       { execCount := 0, resolverCalls := a.resolverCalls, probed := a.probed,
         dlCalls := [], prompted := false, auditWrites := writes })
    else if jsToLower w.answer ≠ "y" then
      ({ success := false, results := a.items.map cancelOutcome },
       { execCount := 0, resolverCalls := a.resolverCalls, probed := a.probed,
         dlCalls := [], prompted := true, auditWrites := writes })
    else
      let dl := dlLoop w 0 a.missing
      let installedMods :=
        a.items.filter (fun m => !(a.missing.any (fun mm => mm.modId == m.modId)))
      let results := dl.1 ++ installedMods.map skipOutcome
      ({ success := results.all (fun o => o.success), results := results },
       { execCount := dl.2, resolverCalls := a.resolverCalls, probed := a.probed,
         dlCalls := a.missing, prompted := true, auditWrites := writes })

/-! ## Concrete sample environments (used by the closed instances below) -/

/-- A filesystem with no entries and no I/O errors. -/
def emptyFs : Fs := ⟨fun _ => none, fun _ => false⟩

/-- A filesystem holding exactly the given entries, with no I/O errors. -/
def fsWith (ps : List (String × EntryKind)) : Fs :=
  ⟨fun p => (ps.find? (fun q => q.1 == p)).map (fun q => q.2), fun _ => false⟩

def exItemA : ModItem := ⟨"mA", "11", "Alpha"⟩

/-- Driver world: the item is nowhere, the tool fails on every attempt. -/
def w2fail : DmWorld :=
  ⟨fun _ => emptyFs, fun _ => .fail "boom" "", fun _ _ _ => none, fun _ => none⟩

/-- Driver world: attempt 0 fails, attempt 1 succeeds with the marker, the
payload present and the copy succeeding. -/
def w2succ : DmWorld :=
  ⟨fun _ => fsWith [(dlPayloadPath "11", .dir)],
   fun i => if i == 0 then .fail "e0" "" else .ok "ok Success done" "",
   fun _ _ _ => none, fun _ => none⟩

/-- Driver world: the item is in the workshop cache and the copy throws. -/
def w8copy : DmWorld :=
  ⟨fun _ => fsWith [(pathJoin workshopDir "11", .dir), (modsDirectory, .dir)],
   fun _ => .fail "unused" "", fun _ _ _ => some "copy boom", fun _ => none⟩

/-- Driver world: attempt 0 reaches exec and fails; on the retry the item has
appeared in the workshop cache and the copy throws. -/
def w8retry : DmWorld :=
  ⟨fun i => if i == 0 then emptyFs
            else fsWith [(pathJoin workshopDir "11", .dir), (modsDirectory, .dir)],
   fun _ => .fail "net down" "", fun _ _ _ => some "copy boom2", fun _ => none⟩

/-- A workshop-cache entry named 42 that is a plain file, not a directory. -/
def cexFs : Fs := fsWith [(pathJoin workshopDir "42", .file)]

/-- A search world no run consults (ids already known). -/
def noSearch : SearchWorld := ⟨.body "", fun _ _ => .ok none⟩

/-- A search world whose block match always fails: the resolver answers
NotFound for every name. -/
def nfSearch : SearchWorld := ⟨.body "nothing here", fun _ _ => .ok none⟩

/-- A driver world in which `sid` is already installed: `downloadMod`
resolves immediately with zero exec invocations. -/
def dmTrivial (sid : String) : DmWorld :=
  ⟨fun _ => fsWith [(pathJoin modsDirectory sid, .dir)], fun _ => .fail "x" "",
   fun _ _ _ => none, fun _ => none⟩

/-- Two items sharing localId "m1": Alpha missing, Beta installed. -/
def cexMods1 : List ModItem := [⟨"m1", "11", "Alpha"⟩, ⟨"m1", "22", "Beta"⟩]

def cexOrch1 : OrchWorld :=
  ⟨fun _ => noSearch, fsWith [(pathJoin modsDirectory "22", .dir)], "y", fun _ => dmTrivial "11",
   fun _ => none⟩

def mods3 : List ModItem := [⟨"m1", "33", "Gamma"⟩]

def orch3 : OrchWorld :=
  ⟨fun _ => noSearch, emptyFs, "n", fun _ => dmTrivial "33", fun _ => none⟩

def acc3 : AnalyzeAcc := ⟨mods3, mods3, [], mods3, []⟩

def mods4 : List ModItem := [⟨"m1", "44", "Delta"⟩]

def orch4 : OrchWorld :=
  ⟨fun _ => noSearch, fsWith [(pathJoin modsDirectory "44", .dir)], "n", fun _ => dmTrivial "44",
   fun _ => none⟩

def ghostItem : ModItem := ⟨"m1", "0", "Ghost"⟩

def mods6 : List ModItem := [ghostItem, ⟨"m2", "55", "Eps"⟩]

def orch6 : OrchWorld :=
  ⟨fun _ => nfSearch, fsWith [(pathJoin modsDirectory "55", .dir)], "n", fun _ => dmTrivial "55",
   fun _ => none⟩

def acc6 : AnalyzeAcc := ⟨mods6, [], [ghostItem], [⟨"m2", "55", "Eps"⟩], ["Ghost"]⟩

/-- A search world whose block-match step throws, as `new RegExp` does when
the unescaped name is invalid regex syntax. -/
def regexThrowSearch : SearchWorld :=
  ⟨.body "<html>", fun _ _ => .error "Invalid regular expression"⟩

/-- Like `orch4`, but the write of the missing-mods audit file rejects. -/
def orch4cex : OrchWorld :=
  ⟨fun _ => noSearch, fsWith [(pathJoin modsDirectory "44", .dir)], "n", fun _ => dmTrivial "44",
   fun p => if p == missingModsFile then some "EACCES" else none⟩

/-- An empty-input run whose missing-mods audit write rejects. -/
def orch9cex : OrchWorld :=
  ⟨fun _ => noSearch, emptyFs, "y", fun _ => dmTrivial "1",
   fun p => if p == missingModsFile then some "ENOSPC" else none⟩

def doomItem : ModItem := ⟨"m9", "0", "Doom"⟩

def mods6cex : List ModItem := [ghostItem, doomItem]

/-- "Ghost" resolves NotFound, but the later "Doom" hits a transport error,
so the whole analysis aborts before the audit files are written. -/
def orch6cex : OrchWorld :=
  ⟨fun n => if n == "Doom" then ⟨.reqError "ECONNRESET", fun _ _ => .ok none⟩ else nfSearch,
   emptyFs, "y", fun _ => dmTrivial "55", fun _ => none⟩

def dupItem : ModItem := ⟨"m1", "77", "Dup"⟩

/-- "Ghost" (localId m1) resolves NotFound while "Dup" (same localId m1) is
missing and gets downloaded on the confirmed path. -/
def mods10cex : List ModItem := [ghostItem, dupItem]

def orch10cex : OrchWorld :=
  ⟨fun _ => nfSearch, emptyFs, "y", fun _ => dmTrivial "77", fun _ => none⟩

/-- The (localId, displayName) view of an item: the two fields the outcome
objects are built from, and the two `analyzeMods` never rebinds. -/
def pairOf (m : ModItem) : String × String := (m.modId, m.name)

/-! ## Driver lemmas -/

theorem attempt_cases (w : DmWorld) (m : ModItem) (i : Nat) :
    (∃ r, attempt w m i = (.done r, 0))
    ∨ (∃ r, attempt w m i = (.done r, 1))
    ∨ (∃ e, attempt w m i = (.failRetryable e, 1)) := by
  cases h1 : isModInstalled (w.fsAt i) m.modId m.steamId with
  | true => exact Or.inl ⟨.resolved, by simp [attempt, h1]⟩
  | false =>
    cases h2 : isModInSteamCmd (w.fsAt i) m.steamId with
    | true =>
      cases h3 : ensureModsDir (w.fsAt i) w i with
      | some e => exact Or.inl ⟨.rejected e, by simp [attempt, h1, h2, h3]⟩
      | none =>
        cases h4 : w.cpAt i (pathJoin workshopDir m.steamId) (pathJoin modsDirectory m.steamId) with
        | some e => exact Or.inl ⟨.rejected e, by simp [attempt, h1, h2, h3, h4]⟩
        | none => exact Or.inl ⟨.resolved, by simp [attempt, h1, h2, h3, h4]⟩
    | false =>
      cases h3 : ensureModsDir (w.fsAt i) w i with
      | some e => exact Or.inl ⟨.rejected e, by simp [attempt, h1, h2, h3]⟩
      | none =>
        cases h5 : w.execAt i with
        | fail emsg eo => exact Or.inr (Or.inr ⟨emsg, by simp [attempt, h1, h2, h3, h5]⟩)
        | ok so eo =>
          cases h6 : jsIncludes so "Success" with
          | false =>
            exact Or.inr (Or.inr ⟨noMarkerMsg m, by simp [attempt, h1, h2, h3, h5, h6]⟩)
          | true =>
            cases h7 : existsSyncB (w.fsAt i) (dlPayloadPath m.steamId) with
            | false =>
              exact Or.inr (Or.inr ⟨payloadMissingMsg m, by simp [attempt, h1, h2, h3, h5, h6, h7]⟩)
            | true =>
              cases h8 : w.cpAt i (dlPayloadPath m.steamId) (pathJoin modsDirectory m.steamId) with
              | some e =>
                exact Or.inr (Or.inl ⟨.rejected e, by simp [attempt, h1, h2, h3, h5, h6, h7, h8]⟩)
              | none =>
                exact Or.inr (Or.inl ⟨.resolved, by simp [attempt, h1, h2, h3, h5, h6, h7, h8]⟩)

theorem attempt_retryFail_shape (w : DmWorld) (m : ModItem) (i : Nat)
    (h : (attempt w m i).1.isRetryFail = true) :
    attempt w m i = (.failRetryable (failMsgOf (attempt w m i).1), 1) := by
  rcases attempt_cases w m i with ⟨r, hr⟩ | ⟨r, hr⟩ | ⟨e, hr⟩ <;>
    rw [hr] at h ⊢ <;> simp_all [AttemptOut.isRetryFail, failMsgOf]

theorem downloadMod_done (w : DmWorld) (m : ModItem) (i : Nat) (r : DlResult) (c : Nat)
    (h : attempt w m i = (.done r, c)) (fuel : Nat) :
    downloadMod w m fuel i = (r, c, []) := by
  match fuel with
  | 0 => simp [downloadMod, singleShot, h]
  | 1 => simp [downloadMod, singleShot, h]
  | n + 2 => simp [downloadMod, h]

theorem downloadMod_failStop (w : DmWorld) (m : ModItem) (i : Nat) (e : String) (c : Nat)
    (h : attempt w m i = (.failRetryable e, c)) :
    downloadMod w m 0 i = (.rejected e, c, []) ∧ downloadMod w m 1 i = (.rejected e, c, []) := by
  constructor <;> simp [downloadMod, singleShot, h]

theorem downloadMod_failStep (w : DmWorld) (m : ModItem) (i : Nat) (e : String) (c n : Nat)
    (h : attempt w m i = (.failRetryable e, c)) :
    downloadMod w m (n + 2) i =
      ((downloadMod w m (n + 1) (i + 1)).1,
        c + (downloadMod w m (n + 1) (i + 1)).2.1,
        retryDelayMs :: (downloadMod w m (n + 1) (i + 1)).2.2) := by
  simp [downloadMod, h]

theorem downloadMod_allFail (w : DmWorld) (m : ModItem) (n : Nat) :
    ∀ (i : Nat), 1 ≤ n →
    (∀ j, j < n → (attempt w m (i + j)).1.isRetryFail = true) →
    downloadMod w m n i =
      (.rejected (failMsgOf (attempt w m (i + n - 1)).1), n,
        List.replicate (n - 1) retryDelayMs) := by
  induction n with
  | zero => intro i h1; omega
  | succ k ih =>
    intro i h1 hall
    have h0 : (attempt w m i).1.isRetryFail = true := by
      have := hall 0 (by omega); simpa using this
    have hshape := attempt_retryFail_shape w m i h0
    rcases Nat.eq_zero_or_pos k with hk | hk
    · subst hk
      rw [(downloadMod_failStop w m i _ _ hshape).2]
      simp
    · obtain ⟨k', rfl⟩ : ∃ k', k = k' + 1 := ⟨k - 1, by omega⟩
      rw [downloadMod_failStep w m i _ _ k' hshape]
      have ihh := ih (i + 1) (by omega) (fun j hj => by
        have := hall (j + 1) (by omega)
        rwa [show i + (j + 1) = (i + 1) + j by omega] at this)
      rw [ihh]
      simp only [Prod.mk.injEq]
      refine ⟨?_, by omega, ?_⟩
      · rw [show (i + 1) + (k' + 1) - 1 = i + (k' + 1 + 1) - 1 by omega]
      · rw [show k' + 1 + 1 - 1 = (k' + 1 - 1) + 1 by omega, List.replicate_succ]

theorem downloadMod_firstSuccess (w : DmWorld) (m : ModItem) (k : Nat) :
    ∀ (n i : Nat), 1 ≤ k → k ≤ n →
    (∀ j, j < k - 1 → (attempt w m (i + j)).1.isRetryFail = true) →
    attempt w m (i + (k - 1)) = (.done .resolved, 1) →
    downloadMod w m n i = (.resolved, k, List.replicate (k - 1) retryDelayMs) := by
  induction k with
  | zero => intro n i h1; omega
  | succ kk ih =>
    intro n i h1 hkn hall hsucc
    rcases Nat.eq_zero_or_pos kk with hk | hk
    · subst hk
      have hs : attempt w m i = (.done .resolved, 1) := by simpa using hsucc
      rw [downloadMod_done w m i _ _ hs n]
      simp
    · have h0 : (attempt w m i).1.isRetryFail = true := by
        have := hall 0 (by omega); simpa using this
      have hshape := attempt_retryFail_shape w m i h0
      obtain ⟨n', rfl⟩ : ∃ n', n = n' + 2 := ⟨n - 2, by omega⟩
      rw [downloadMod_failStep w m i _ _ n' hshape]
      have ihh := ih (n' + 1) (i + 1) (by omega) (by omega)
        (fun j hj => by
          have := hall (j + 1) (by omega)
          rwa [show i + (j + 1) = (i + 1) + j by omega] at this)
        (by rwa [show (i + 1) + (kk - 1) = i + (kk + 1 - 1) by omega])
      rw [ihh]
      simp only [Prod.mk.injEq]
      refine ⟨by trivial, by omega, ?_⟩
      rw [show kk + 1 - 1 = (kk - 1) + 1 by omega, List.replicate_succ]

/-! ## Claim C2: retry bound of the acquisition driver -/

/-- C2: for a missing item, when every attempt fails retryably (subprocess
error, missing `Success` marker, or payload absent despite the marker),
`downloadMod` with retryCount `n >= 1` performs exactly `n` exec invocations,
waits the fixed 2000 ms delay between consecutive attempts, and rejects with
the last attempt's error; when the tool first fully succeeds on attempt `k <=
n`, exactly `k` exec invocations occur and the call resolves. -/
theorem downloadMod_retry_bound (w w' : DmWorld) (m : ModItem) (n k : Nat)
    (hn : 1 ≤ n) (hk : 1 ≤ k) (hkn : k ≤ n)
    (hfail : ∀ j, j < n → (attempt w m j).1.isRetryFail = true)
    (hfail' : ∀ j, j < k - 1 → (attempt w' m j).1.isRetryFail = true)
    (hsucc : attempt w' m (k - 1) = (.done .resolved, 1)) :
    downloadMod w m n 0 =
      (.rejected (failMsgOf (attempt w m (n - 1)).1), n, List.replicate (n - 1) retryDelayMs)
    ∧ downloadMod w' m n 0 = (.resolved, k, List.replicate (k - 1) retryDelayMs) := by
  constructor
  · have := downloadMod_allFail w m n 0 hn (fun j hj => by simpa using hfail j hj)
    simpa using this
  · exact downloadMod_firstSuccess w' m k n 0 hk hkn
      (fun j hj => by simpa using hfail' j hj) (by simpa using hsucc)

/-- C2 witness: against `w2fail` (every attempt's exec fails) three exec
invocations, two 2000 ms delays, final rejection with the last error; against
`w2succ` (attempt 0 fails, attempt 1 succeeds) two invocations, one delay,
resolution. -/
theorem downloadMod_retry_bound_witness :
    downloadMod w2fail exItemA 3 0 =
      (.rejected (failMsgOf (attempt w2fail exItemA 2).1), 3, List.replicate 2 retryDelayMs)
    ∧ downloadMod w2succ exItemA 3 0 = (.resolved, 2, List.replicate 1 retryDelayMs) := by
  have h := downloadMod_retry_bound w2fail w2succ exItemA 3 2 (by decide) (by decide) (by decide)
    (by decide) (by decide) (by decide)
  simpa using h

/-! ## Claim C8: cache-copy failure is not retried by the driver's loop -/

/-- C8: when the item is CachedUncopied and the recursive copy from the
workshop cache throws, the attempt terminates as failed at once — no exec
invocation, no delay, no dedicated retry of the copy, for every remaining
retry budget and at every attempt index; and (second conjunct) the copy
failure remains reachable through the outer bound only via the
restart-at-step-1 rule: after a retryable exec failure on attempt 0, the
re-entered attempt 1 that finds the item cached and fails the copy rejects
with 1 total exec invocation and one delay. -/
theorem downloadMod_copyFail_noRetry (w w₂ : DmWorld) (m : ModItem) (i fuel : Nat)
    (e e₂ : String)
    (h1 : isModInstalled (w.fsAt i) m.modId m.steamId = false)
    (h2 : isModInSteamCmd (w.fsAt i) m.steamId = true)
    (h3 : ensureModsDir (w.fsAt i) w i = none)
    (h4 : w.cpAt i (pathJoin workshopDir m.steamId) (pathJoin modsDirectory m.steamId) = some e)
    (h5 : (attempt w₂ m 0).1.isRetryFail = true)
    (h6 : isModInstalled (w₂.fsAt 1) m.modId m.steamId = false)
    (h7 : isModInSteamCmd (w₂.fsAt 1) m.steamId = true)
    (h8 : ensureModsDir (w₂.fsAt 1) w₂ 1 = none)
    (h9 : w₂.cpAt 1 (pathJoin workshopDir m.steamId) (pathJoin modsDirectory m.steamId) = some e₂) :
    downloadMod w m fuel i = (.rejected e, 0, [])
    ∧ downloadMod w₂ m 3 0 = (.rejected e₂, 1, [retryDelayMs]) := by
  have hat : attempt w m i = (.done (.rejected e), 0) := by
    simp [attempt, h1, h2, h3, h4]
  have hat1 : attempt w₂ m 1 = (.done (.rejected e₂), 0) := by
    simp [attempt, h6, h7, h8, h9]
  refine ⟨downloadMod_done w m i _ _ hat fuel, ?_⟩
  have hshape := attempt_retryFail_shape w₂ m 0 h5
  rw [downloadMod_failStep w₂ m 0 _ _ 1 hshape, downloadMod_done w₂ m 1 _ _ hat1 2]
  simp

/-- C8 witness: `w8copy` rejects with the copy error, zero execs, no delay,
with a full retry budget of 3; `w8retry` fails exec on attempt 0 and rejects
on the re-entered cached copy of attempt 1, with 1 exec and one delay. -/
theorem downloadMod_copyFail_noRetry_witness :
    downloadMod w8copy exItemA 3 5 = (.rejected "copy boom", 0, [])
    ∧ downloadMod w8retry exItemA 3 0 = (.rejected "copy boom2", 1, [retryDelayMs]) :=
  downloadMod_copyFail_noRetry w8copy w8retry exItemA 5 3 "copy boom" "copy boom2"
    (by decide) (by decide) (by decide) (by decide) (by decide) (by decide) (by decide)
    (by decide) (by decide)

/-! ## Claim C7: classifier probes (amended) -/

/-- C7 (amended): the probes are total Boolean functions; an I/O error on a
probe yields `false`; `isModInstalled` is true exactly when, absent an I/O
error, a directory named the identifier sits under the target mods directory;
the cache probe `isModInSteamCmd` is true exactly when, absent an I/O error,
an entry of ANY kind (directory or plain file) named the identifier sits
under the workshop-cache path — the source uses `existsSync`, which does not
require a directory; and CachedUncopied is exactly: not installed and the
cache probe true. -/
theorem classifier_probe_spec (fs : Fs) (modId steamId : String) :
    isModInstalled fs modId steamId =
      (!(fs.ioErr (pathJoin modsDirectory steamId))
        && (fs.entry (pathJoin modsDirectory steamId) == some EntryKind.dir))
    ∧ isModInSteamCmd fs steamId =
      (!(fs.ioErr (pathJoin workshopDir steamId))
        && (fs.entry (pathJoin workshopDir steamId)).isSome)
    ∧ (classify fs modId steamId = ModState.cachedUncopied ↔
        (isModInstalled fs modId steamId = false ∧ isModInSteamCmd fs steamId = true)) := by
  refine ⟨?_, ?_, ?_⟩
  · unfold isModInstalled statSyncIsDir
    cases hio : fs.ioErr (pathJoin modsDirectory steamId) <;>
      cases he : fs.entry (pathJoin modsDirectory steamId) <;>
        simp_all
  · unfold isModInSteamCmd existsSyncB
    cases hio : fs.ioErr (pathJoin workshopDir steamId) <;> simp_all
  · unfold classify
    cases hi : isModInstalled fs modId steamId <;>
      cases hc : isModInSteamCmd fs steamId <;> simp_all

/-- C7 counterexample: with a plain FILE named "42" in the workshop cache and
nothing installed, the item is classified CachedUncopied although no
DIRECTORY named "42" exists under the workshop-cache path — refuting the
claim's "a directory named the identifier exists" reading of the cache
probe. -/
theorem classifier_cache_file_cex :
    classify cexFs "m42" "42" = ModState.cachedUncopied
    ∧ cexFs.entry (pathJoin workshopDir "42") ≠ some EntryKind.dir
    ∧ isModInstalled cexFs "m42" "42" = false := by
  refine ⟨by decide, by decide, by decide⟩

/-! ## Claim C5 (amended): resolver error handling -/

/-- C5 (amended): `findModByName` rejects exactly when the request itself
fails OR when the block-match step itself throws — the unescaped name is
embedded into `new RegExp`, whose construction can throw, and the catch at
part_003 lines 89-94 logs once and rejects; it issues exactly one request
(no retry); it emits exactly one error-log entry naming the failed name
unless it found an id, and none when it did; and it yields an id exactly
when the match step returned a block AND the numeric id could be extracted —
so both the no-match case and the id-not-extractable case resolve NotFound
(null) without raising. -/
theorem findModByName_spec (sw : SearchWorld) (modName : String) :
    ((findModByName sw modName).result.isRejected =
      (match sw.http with
       | .reqError _ => true
       | .body d =>
         match sw.blockMatch d modName with
         | .error _ => true
         | .ok _ => false))
    ∧ ((findModByName sw modName).httpCalls = 1)
    ∧ ((findModByName sw modName).logs.length =
        if (findModByName sw modName).result.isFound then 0 else 1)
    ∧ ((findModByName sw modName).logs.all (fun e => e.name == modName) = true)
    ∧ ((findModByName sw modName).result.isFound =
        (match sw.http with
         | .body d =>
           match sw.blockMatch d modName with
           | .ok ob => (ob.bind urlMatchId).isSome
           | .error _ => false
         | .reqError _ => false)) := by
  rcases sw with ⟨http, bm⟩
  cases http with
  | reqError e =>
    simp [findModByName, FindResult.isRejected, FindResult.isFound]
  | body d =>
    cases hb : bm d modName with
    | error em =>
      simp [findModByName, hb, FindResult.isRejected, FindResult.isFound]
    | ok ob =>
      cases ob with
      | none =>
        simp [findModByName, hb, FindResult.isRejected, FindResult.isFound]
      | some blk =>
        cases hu : urlMatchId blk with
        | none =>
          simp [findModByName, hb, hu, FindResult.isRejected, FindResult.isFound]
        | some fid =>
          simp [findModByName, hb, hu, FindResult.isRejected, FindResult.isFound]

/-- C5 counterexample: with a well-received body but a throwing match step
(`new RegExp` on the invalid-regex name "("), `findModByName` REJECTS — a
non-network failure that raises, refuting "returns NotFound, never raising,
for all non-network failures / rejection only when the request itself
fails". -/
theorem findModByName_raise_cex :
    (findModByName regexThrowSearch "(").result.isRejected = true
    ∧ regexThrowSearch.http.isReqError = false
    ∧ (findModByName regexThrowSearch "(").result ≠ FindResult.notFound := by
  refine ⟨by decide, by decide, by decide⟩

/-! ## Orchestrator lemmas -/

theorem map_pair_map_modId {l l' : List ModItem}
    (h : l.map pairOf = l'.map pairOf) :
    l.map ModItem.modId = l'.map ModItem.modId := by
  have h2 := congrArg (List.map Prod.fst) h
  rw [List.map_map, List.map_map] at h2
  exact h2

theorem map_pair_length {l l' : List ModItem}
    (h : l.map pairOf = l'.map pairOf) : l.length = l'.length := by
  have := congrArg List.length h
  simpa using this

theorem map_outcome_eq (g : String × String → Outcome) {l l' : List ModItem}
    (h : l.map pairOf = l'.map pairOf) :
    l.map (fun m => g (pairOf m)) = l'.map (fun m => g (pairOf m)) := by
  have h2 := congrArg (List.map g) h
  rw [List.map_map, List.map_map] at h2
  exact h2

theorem classifyCont_missing_sub (fs : Fs) (m : ModItem) (a : AnalyzeAcc)
    (h : a.missing.Sublist a.probed) :
    (classifyCont fs m a).missing.Sublist (classifyCont fs m a).probed := by
  by_cases hc : (!isModInstalled fs m.modId m.steamId && !isModInSteamCmd fs m.steamId) = true
  · simp only [classifyCont, hc, if_true]
    exact List.Sublist.cons₂ m h
  · simp only [classifyCont, hc, if_false]
    exact List.Sublist.cons m h

theorem classifyCont_items (fs : Fs) (m : ModItem) (a : AnalyzeAcc) :
    (classifyCont fs m a).items = m :: a.items := by
  simp [classifyCont]

theorem classifyCont_probed (fs : Fs) (m : ModItem) (a : AnalyzeAcc) :
    (classifyCont fs m a).probed = m :: a.probed := by
  simp [classifyCont]

theorem classifyCont_notFound (fs : Fs) (m : ModItem) (a : AnalyzeAcc) :
    (classifyCont fs m a).notFound = a.notFound := by
  simp [classifyCont]

theorem ana_basic (w : OrchWorld) : ∀ (mods : List ModItem) (a : AnalyzeAcc),
    analyzeModsLoop w mods = .ok a →
    a.items.map pairOf = mods.map pairOf
    ∧ a.missing.Sublist a.probed
    ∧ a.probed.Sublist a.items
    ∧ a.notFound.Sublist a.items := by
  intro mods
  induction mods with
  | nil =>
    intro a h
    simp only [analyzeModsLoop, Except.ok.injEq] at h
    subst h
    simp
  | cons m rest ih =>
    intro a h
    simp only [analyzeModsLoop] at h
    split at h
    · -- core-name branch
      cases hrest : analyzeModsLoop w rest with
      | error e => rw [hrest] at h; simp at h
      | ok a' =>
        rw [hrest] at h
        simp only [Except.ok.injEq] at h
        subst h
        obtain ⟨h1, h2, h3, h4⟩ := ih a' hrest
        exact ⟨by simp [h1], h2, List.Sublist.cons m h3, List.Sublist.cons m h4⟩
    · split at h
      · -- steamId = "0" branch
        cases hfr : (findModByName (w.search m.name) m.name).result with
        | rejected e => rw [hfr] at h; simp at h
        | notFound =>
          rw [hfr] at h
          cases hrest : analyzeModsLoop w rest with
          | error e => rw [hrest] at h; simp at h
          | ok a' =>
            rw [hrest] at h
            simp only [Except.ok.injEq] at h
            subst h
            obtain ⟨h1, h2, h3, h4⟩ := ih a' hrest
            exact ⟨by simp [h1], h2, List.Sublist.cons m h3, List.Sublist.cons₂ m h4⟩
        | found fid =>
          rw [hfr] at h
          cases hrest : analyzeModsLoop w rest with
          | error e => rw [hrest] at h; simp at h
          | ok a' =>
            rw [hrest] at h
            simp only [Except.ok.injEq] at h
            subst h
            obtain ⟨h1, h2, h3, h4⟩ := ih a' hrest
            refine ⟨?_, ?_, ?_, ?_⟩
            · rw [classifyCont_items]
              simp only [List.map_cons, h1]
              rfl
            · exact classifyCont_missing_sub _ _ _ h2
            · rw [classifyCont_probed, classifyCont_items]
              exact List.Sublist.cons₂ _ h3
            · rw [classifyCont_notFound, classifyCont_items]
              exact List.Sublist.cons _ h4
      · -- known-id branch
        cases hrest : analyzeModsLoop w rest with
        | error e => rw [hrest] at h; simp at h
        | ok a' =>
          rw [hrest] at h
          simp only [Except.ok.injEq] at h
          subst h
          obtain ⟨h1, h2, h3, h4⟩ := ih a' hrest
          refine ⟨?_, ?_, ?_, ?_⟩
          · rw [classifyCont_items]
            simp only [List.map_cons, h1]
          · exact classifyCont_missing_sub _ _ _ h2
          · rw [classifyCont_probed, classifyCont_items]
            exact List.Sublist.cons₂ _ h3
          · rw [classifyCont_notFound, classifyCont_items]
            exact List.Sublist.cons _ h4

theorem ana_item_id_mem (w : OrchWorld) {mods : List ModItem} {a : AnalyzeAcc}
    (hA : analyzeModsLoop w mods = .ok a) {x : ModItem} (hx : x ∈ a.items) :
    x.modId ∈ mods.map ModItem.modId := by
  obtain ⟨h1, _, _, _⟩ := ana_basic w mods a hA
  have hid := map_pair_map_modId h1
  rw [← hid]
  exact List.mem_map_of_mem _ hx

theorem ana_probed_id_mem (w : OrchWorld) {mods : List ModItem} {a : AnalyzeAcc}
    (hA : analyzeModsLoop w mods = .ok a) {x : ModItem} (hx : x ∈ a.probed) :
    x.modId ∈ mods.map ModItem.modId := by
  obtain ⟨h1, _, h3, _⟩ := ana_basic w mods a hA
  exact ana_item_id_mem w hA (h3.subset hx)

theorem ana_notFound_id_mem (w : OrchWorld) {mods : List ModItem} {a : AnalyzeAcc}
    (hA : analyzeModsLoop w mods = .ok a) {x : ModItem} (hx : x ∈ a.notFound) :
    x.modId ∈ mods.map ModItem.modId := by
  obtain ⟨h1, _, _, h4⟩ := ana_basic w mods a hA
  exact ana_item_id_mem w hA (h4.subset hx)

/-- Under distinct input localIds, no probed item shares a localId with an
unresolved (notFound) item: each input position lands in exactly one bucket. -/
theorem ana_disjoint (w : OrchWorld) : ∀ (mods : List ModItem) (a : AnalyzeAcc),
    analyzeModsLoop w mods = .ok a → (mods.map ModItem.modId).Nodup →
    ∀ p ∈ a.probed, ∀ q ∈ a.notFound, p.modId ≠ q.modId := by
  intro mods
  induction mods with
  | nil =>
    intro a h hnd
    simp only [analyzeModsLoop, Except.ok.injEq] at h
    subst h
    simp
  | cons m rest ih =>
    intro a h hnd
    have h0 := hnd
    rw [List.map_cons, List.nodup_cons] at h0
    have hnd' : (rest.map ModItem.modId).Nodup := h0.2
    have hm : m.modId ∉ rest.map ModItem.modId := h0.1
    simp only [analyzeModsLoop] at h
    split at h
    · cases hrest : analyzeModsLoop w rest with
      | error e => rw [hrest] at h; simp at h
      | ok a' =>
        rw [hrest] at h
        simp only [Except.ok.injEq] at h
        subst h
        exact ih a' hrest hnd'
    · split at h
      · cases hfr : (findModByName (w.search m.name) m.name).result with
        | rejected e => rw [hfr] at h; simp at h
        | notFound =>
          rw [hfr] at h
          cases hrest : analyzeModsLoop w rest with
          | error e => rw [hrest] at h; simp at h
          | ok a' =>
            rw [hrest] at h
            simp only [Except.ok.injEq] at h
            subst h
            intro p hp q hq
            simp only [List.mem_cons] at hq
            rcases hq with rfl | hq
            · intro hEq
              exact hm (hEq ▸ ana_probed_id_mem w hrest hp)
            · exact ih a' hrest hnd' p hp q hq
        | found fid =>
          rw [hfr] at h
          cases hrest : analyzeModsLoop w rest with
          | error e => rw [hrest] at h; simp at h
          | ok a' =>
            rw [hrest] at h
            simp only [Except.ok.injEq] at h
            subst h
            intro p hp q hq
            rw [classifyCont_probed] at hp
            rw [classifyCont_notFound] at hq
            simp only [List.mem_cons] at hp
            rcases hp with rfl | hp
            · intro hEq
              exact hm (hEq ▸ ana_notFound_id_mem w hrest hq)
            · exact ih a' hrest hnd' p hp q hq
      · cases hrest : analyzeModsLoop w rest with
        | error e => rw [hrest] at h; simp at h
        | ok a' =>
          rw [hrest] at h
          simp only [Except.ok.injEq] at h
          subst h
          intro p hp q hq
          rw [classifyCont_probed] at hp
          rw [classifyCont_notFound] at hq
          simp only [List.mem_cons] at hp
          rcases hp with rfl | hp
          · intro hEq
            exact hm (hEq ▸ ana_notFound_id_mem w hrest hq)
          · exact ih a' hrest hnd' p hp q hq

/-- An unresolved item (non-core, unknown id, resolver NotFound) lands in the
`notFound` bucket of a completed analysis. -/
theorem ana_notFound_of (w : OrchWorld) : ∀ (mods : List ModItem) (a : AnalyzeAcc)
    (x : ModItem), analyzeModsLoop w mods = .ok a → x ∈ mods →
    isCoreName x.name = false → x.steamId = "0" →
    (findModByName (w.search x.name) x.name).result = .notFound →
    x ∈ a.notFound := by
  intro mods
  induction mods with
  | nil => intro a x h hx; simp at hx
  | cons m rest ih =>
    intro a x h hx hcore h0 hnf
    simp only [analyzeModsLoop] at h
    rcases List.mem_cons.mp hx with rfl | hx
    · -- the unresolved item is the head
      rw [if_neg (by simp [hcore]), if_pos h0, hnf] at h
      cases hrest : analyzeModsLoop w rest with
      | error e => rw [hrest] at h; simp at h
      | ok a' =>
        rw [hrest] at h
        simp only [Except.ok.injEq] at h
        subst h
        exact List.mem_cons_self _ _
    · -- the unresolved item is in the tail
      split at h
      · cases hrest : analyzeModsLoop w rest with
        | error e => rw [hrest] at h; simp at h
        | ok a' =>
          rw [hrest] at h
          simp only [Except.ok.injEq] at h
          subst h
          exact ih a' x hrest hx hcore h0 hnf
      · split at h
        · cases hfr : (findModByName (w.search m.name) m.name).result with
          | rejected e => rw [hfr] at h; simp at h
          | notFound =>
            rw [hfr] at h
            cases hrest : analyzeModsLoop w rest with
            | error e => rw [hrest] at h; simp at h
            | ok a' =>
              rw [hrest] at h
              simp only [Except.ok.injEq] at h
              subst h
              exact List.mem_cons_of_mem _ (ih a' x hrest hx hcore h0 hnf)
          | found fid =>
            rw [hfr] at h
            cases hrest : analyzeModsLoop w rest with
            | error e => rw [hrest] at h; simp at h
            | ok a' =>
              rw [hrest] at h
              simp only [Except.ok.injEq] at h
              subst h
              rw [classifyCont_notFound]
              exact ih a' x hrest hx hcore h0 hnf
        · cases hrest : analyzeModsLoop w rest with
          | error e => rw [hrest] at h; simp at h
          | ok a' =>
            rw [hrest] at h
            simp only [Except.ok.injEq] at h
            subst h
            rw [classifyCont_notFound]
            exact ih a' x hrest hx hcore h0 hnf

/-- When every input item has a known id and is classified Installed or
CachedUncopied, the analysis returns the input unchanged, with empty missing
and notFound buckets and no resolver call. -/
theorem ana_allKnown (w : OrchWorld) : ∀ (mods : List ModItem),
    (∀ m ∈ mods, m.steamId ≠ "0" ∧ classify w.fs m.modId m.steamId ≠ ModState.missing) →
    ∃ pr, analyzeModsLoop w mods = .ok ⟨mods, [], [], pr, []⟩ := by
  intro mods
  induction mods with
  | nil => intro _; exact ⟨[], by simp [analyzeModsLoop]⟩
  | cons m rest ih =>
    intro h
    obtain ⟨pr, hrest⟩ := ih (fun x hx => h x (List.mem_cons_of_mem _ hx))
    obtain ⟨h0, hcl⟩ := h m (List.mem_cons_self _ _)
    by_cases hcore : isCoreName m.name = true
    · refine ⟨pr, ?_⟩
      simp only [analyzeModsLoop, hcore, if_true, hrest]
    · have hmiss : (!isModInstalled w.fs m.modId m.steamId
          && !isModInSteamCmd w.fs m.steamId) = false := by
        by_contra hcon
        apply hcl
        have hb : (!isModInstalled w.fs m.modId m.steamId
            && !isModInSteamCmd w.fs m.steamId) = true := by
          revert hcon
          cases (!isModInstalled w.fs m.modId m.steamId
            && !isModInSteamCmd w.fs m.steamId) <;> simp
        rw [Bool.and_eq_true, Bool.not_eq_true', Bool.not_eq_true'] at hb
        simp [classify, hb.1, hb.2]
      refine ⟨m :: pr, ?_⟩
      simp only [analyzeModsLoop, hcore, if_false, if_neg h0, hrest]
      simp [classifyCont, hmiss]

theorem analyzeMods_ok_elim {w : OrchWorld} {mods : List ModItem} {a : AnalyzeAcc}
    (hA : analyzeMods w mods = .ok a) :
    analyzeModsLoop w mods = .ok a
    ∧ w.writeFail missingModsFile = none
    ∧ w.writeFail notFoundModsFile = none := by
  unfold analyzeMods writeModsToFile at hA
  cases hl : analyzeModsLoop w mods with
  | error e => rw [hl] at hA; simp at hA
  | ok a' =>
    rw [hl] at hA
    cases hw1 : w.writeFail missingModsFile with
    | some e => rw [hw1] at hA; simp at hA
    | none =>
      rw [hw1] at hA
      cases hw2 : w.writeFail notFoundModsFile with
      | some e => rw [hw2] at hA; simp at hA
      | none =>
        rw [hw2] at hA
        simp only [Except.ok.injEq] at hA
        subst hA
        exact ⟨rfl, rfl, rfl⟩

theorem analyzeMods_ok_intro {w : OrchWorld} {mods : List ModItem} {a : AnalyzeAcc}
    (hL : analyzeModsLoop w mods = .ok a)
    (hw1 : w.writeFail missingModsFile = none)
    (hw2 : w.writeFail notFoundModsFile = none) :
    analyzeMods w mods = .ok a := by
  simp [analyzeMods, writeModsToFile, hL, hw1, hw2]

/-- Value-level exclusion from the classifier: no occurrence of an item
whose steamId is "0" and whose name the resolver answers NotFound for is
ever probed — whatever else the input list contains. No distinctness
hypothesis is needed: a probed item either kept its original non-"0" id or
carries an id the resolver FOUND for its name. -/
theorem ana_notProbed (w : OrchWorld) (x : ModItem) (h0 : x.steamId = "0")
    (hnf : (findModByName (w.search x.name) x.name).result = .notFound) :
    ∀ (mods : List ModItem) (a : AnalyzeAcc),
    analyzeModsLoop w mods = .ok a → x ∉ a.probed := by
  intro mods
  induction mods with
  | nil =>
    intro a h
    simp only [analyzeModsLoop, Except.ok.injEq] at h
    subst h
    simp
  | cons m rest ih =>
    intro a h
    simp only [analyzeModsLoop] at h
    split at h
    · cases hrest : analyzeModsLoop w rest with
      | error e => rw [hrest] at h; simp at h
      | ok a' =>
        rw [hrest] at h
        simp only [Except.ok.injEq] at h
        subst h
        exact ih a' hrest
    · split at h
      · cases hfr : (findModByName (w.search m.name) m.name).result with
        | rejected e => rw [hfr] at h; simp at h
        | notFound =>
          rw [hfr] at h
          cases hrest : analyzeModsLoop w rest with
          | error e => rw [hrest] at h; simp at h
          | ok a' =>
            rw [hrest] at h
            simp only [Except.ok.injEq] at h
            subst h
            exact ih a' hrest
        | found fid =>
          rw [hfr] at h
          cases hrest : analyzeModsLoop w rest with
          | error e => rw [hrest] at h; simp at h
          | ok a' =>
            rw [hrest] at h
            simp only [Except.ok.injEq] at h
            subst h
            rw [classifyCont_probed]
            intro hmem
            rcases List.mem_cons.mp hmem with heq | hmem'
            · have hname : m.name = x.name := by
                have := congrArg ModItem.name heq
                simpa using this.symm
              rw [hname, hnf] at hfr
              exact FindResult.noConfusion hfr
            · exact ih a' hrest hmem'
      · next hns =>
        cases hrest : analyzeModsLoop w rest with
        | error e => rw [hrest] at h; simp at h
        | ok a' =>
          rw [hrest] at h
          simp only [Except.ok.injEq] at h
          subst h
          rw [classifyCont_probed]
          intro hmem
          rcases List.mem_cons.mp hmem with heq | hmem'
          · exact hns (heq ▸ h0)
          · exact ih a' hrest hmem'

theorem dlLoop_len (w : OrchWorld) : ∀ (idx : Nat) (l : List ModItem),
    (dlLoop w idx l).1.length = l.length := by
  intro idx l
  induction l generalizing idx with
  | nil => simp [dlLoop]
  | cons m rest ih => simp [dlLoop, ih]

/-- Counting the `installedMods` filter: with distinct ids and the missing
set a sublist of the pool, the filter keeps exactly the non-missing items. -/
theorem filter_not_missing_len : ∀ (s l : List ModItem), s.Sublist l →
    (l.map ModItem.modId).Nodup →
    (l.filter (fun m => !(s.any (fun mm => mm.modId == m.modId)))).length + s.length
      = l.length := by
  intro s l h
  induction h with
  | slnil => intro _; simp
  | @cons l₁ l₂ a h ih =>
    intro hnd
    have h0 := hnd
    rw [List.map_cons, List.nodup_cons] at h0
    have hpa : (!(l₁.any (fun mm => mm.modId == a.modId))) = true := by
      simp only [Bool.not_eq_true', List.any_eq_false]
      intro mm hmm
      simp only [beq_iff_eq]
      intro hEq
      exact h0.1 (hEq ▸ List.mem_map_of_mem _ (h.subset hmm))
    rw [List.filter_cons, if_pos hpa]
    have := ih h0.2
    simp only [List.length_cons]
    omega
  | @cons₂ l₁ l₂ a h ih =>
    intro hnd
    have h0 := hnd
    rw [List.map_cons, List.nodup_cons] at h0
    have hpa : (!((a :: l₁).any (fun mm => mm.modId == a.modId))) = false := by
      simp
    rw [List.filter_cons, if_neg (by simp [hpa])]
    have hcongr : l₂.filter (fun m => !((a :: l₁).any (fun mm => mm.modId == m.modId)))
        = l₂.filter (fun m => !(l₁.any (fun mm => mm.modId == m.modId))) := by
      apply List.filter_congr
      intro m hm
      have hne : (a.modId == m.modId) = false := by
        simp only [beq_eq_false_iff_ne, ne_eq]
        intro hEq
        exact h0.1 (hEq ▸ List.mem_map_of_mem _ hm)
      simp [List.any_cons, hne]
    rw [hcongr]
    have := ih h0.2
    simp only [List.length_cons]
    omega

theorem downloadMods_err (w : OrchWorld) (mods : List ModItem) (e : String)
    (hA : analyzeMods w mods = .error e) :
    downloadMods w mods =
      ({ success := false, results := mods.map genericErrOutcome },
       { execCount := 0, resolverCalls := [], probed := [], dlCalls := [],
         prompted := false, auditWrites := [] }) := by
  simp [downloadMods, hA]

theorem downloadMods_ok_empty (w : OrchWorld) (mods : List ModItem) (a : AnalyzeAcc)
    (hA : analyzeMods w mods = .ok a) (hme : a.missing = []) :
    downloadMods w mods =
      ({ success := true, results := a.items.map skipOutcome },
       { execCount := 0, resolverCalls := a.resolverCalls, probed := a.probed,
         dlCalls := [], prompted := false,
         auditWrites := [(missingModsFile, renderModsFile missingHeader a.missing),
                         (notFoundModsFile, renderModsFile notFoundHeader a.notFound)] }) := by
  simp [downloadMods, hA, hme]

theorem downloadMods_ok_decline (w : OrchWorld) (mods : List ModItem) (a : AnalyzeAcc)
    (hA : analyzeMods w mods = .ok a) (hme : a.missing ≠ [])
    (hans : jsToLower w.answer ≠ "y") :
    downloadMods w mods =
      ({ success := false, results := a.items.map cancelOutcome },
       { execCount := 0, resolverCalls := a.resolverCalls, probed := a.probed,
         dlCalls := [], prompted := true,
         auditWrites := [(missingModsFile, renderModsFile missingHeader a.missing),
                         (notFoundModsFile, renderModsFile notFoundHeader a.notFound)] }) := by
  simp [downloadMods, hA, hme, hans]

theorem downloadMods_ok_confirm (w : OrchWorld) (mods : List ModItem) (a : AnalyzeAcc)
    (hA : analyzeMods w mods = .ok a) (hme : a.missing ≠ [])
    (hans : jsToLower w.answer = "y") :
    downloadMods w mods =
      ({ success := ((dlLoop w 0 a.missing).1
            ++ (a.items.filter
                (fun m => !(a.missing.any (fun mm => mm.modId == m.modId)))).map skipOutcome).all
              (fun o => o.success),
         results := (dlLoop w 0 a.missing).1
            ++ (a.items.filter
                (fun m => !(a.missing.any (fun mm => mm.modId == m.modId)))).map skipOutcome },
       { execCount := (dlLoop w 0 a.missing).2, resolverCalls := a.resolverCalls,
         probed := a.probed, dlCalls := a.missing, prompted := true,
         auditWrites := [(missingModsFile, renderModsFile missingHeader a.missing),
                         (notFoundModsFile, renderModsFile notFoundHeader a.notFound)] }) := by
  simp [downloadMods, hA, hme, hans]

/-! ## Claim C1 (amended): outcome count -/

/-- C1 (amended): with pairwise-distinct localIds, every return path of
`downloadMods` (generic error, empty missing, decline, confirmed downloads)
yields exactly one outcome per input item. Without that hypothesis the
confirmed path can drop a non-missing item that shares its localId with a
missing one (see the counterexample). -/
theorem downloadMods_outcome_count (w : OrchWorld) (mods : List ModItem)
    (hnd : (mods.map ModItem.modId).Nodup) :
    ((downloadMods w mods).1.results).length = mods.length := by
  cases hA : analyzeMods w mods with
  | error e =>
    rw [downloadMods_err w mods e hA]
    simp
  | ok a =>
    obtain ⟨hL, _, _⟩ := analyzeMods_ok_elim hA
    obtain ⟨h1, h2, h3, h4⟩ := ana_basic w mods a hL
    have hlen : a.items.length = mods.length := map_pair_length h1
    have hndI : (a.items.map ModItem.modId).Nodup := by
      rw [map_pair_map_modId h1]; exact hnd
    by_cases hme : a.missing = []
    · rw [downloadMods_ok_empty w mods a hA hme]
      simp [hlen]
    · by_cases hans : jsToLower w.answer = "y"
      · rw [downloadMods_ok_confirm w mods a hA hme hans]
        simp only [List.length_append, List.length_map, dlLoop_len]
        have hsub : a.missing.Sublist a.items := h2.trans h3
        have := filter_not_missing_len a.missing a.items hsub hndI
        omega
      · rw [downloadMods_ok_decline w mods a hA hme hans]
        simp [hlen]

/-- C1 witness: a two-item run with distinct localIds has exactly two
outcomes. -/
theorem downloadMods_outcome_count_witness :
    ((downloadMods orch6 mods6).1.results).length = mods6.length :=
  downloadMods_outcome_count orch6 mods6 (by decide)

/-- C1 counterexample: two input items sharing localId "m1" (one missing, one
installed) produce one outcome instead of two on the confirmed path — the
skipped-outcome filter matches by localId alone and drops the installed
duplicate. -/
theorem downloadMods_outcome_count_cex :
    ((downloadMods cexOrch1 cexMods1).1.results).length ≠ cexMods1.length := by
  decide

/-! ## Claim C9 (amended): overallSuccess is the AND of the outcome flags -/

/-- C9 (amended): on every return path of a run with a NON-EMPTY input the
report's overall success flag equals the conjunction of the success flags of
all its outcomes. For the empty input the equality can fail: a rejecting
audit write takes the generic catch, which returns success = false with zero
outcomes, while the AND over no outcomes is vacuously true (see the
counterexample). -/
theorem downloadMods_overallSuccess (w : OrchWorld) (mods : List ModItem)
    (hne : mods ≠ []) :
    (downloadMods w mods).1.success
      = ((downloadMods w mods).1.results).all (fun o => o.success) := by
  cases hA : analyzeMods w mods with
  | error e =>
    rw [downloadMods_err w mods e hA]
    cases mods with
    | nil => exact absurd rfl hne
    | cons m rest => simp [genericErrOutcome]
  | ok a =>
    obtain ⟨hL, _, _⟩ := analyzeMods_ok_elim hA
    obtain ⟨h1, h2, h3, h4⟩ := ana_basic w mods a hL
    by_cases hme : a.missing = []
    · rw [downloadMods_ok_empty w mods a hA hme]
      simp [List.all_eq_true, skipOutcome]
    · by_cases hans : jsToLower w.answer = "y"
      · rw [downloadMods_ok_confirm w mods a hA hme hans]
      · rw [downloadMods_ok_decline w mods a hA hme hans]
        have hm0 : ∃ m0, m0 ∈ a.items := by
          cases hmiss : a.missing with
          | nil => exact absurd hmiss hme
          | cons mm rest =>
            exact ⟨mm, h3.subset (h2.subset (hmiss ▸ List.mem_cons_self _ _))⟩
        obtain ⟨m0, hm0⟩ := hm0
        cases hitems : a.items with
        | nil => rw [hitems] at hm0; simp at hm0
        | cons y ys => simp [cancelOutcome]

/-- C9 witness: a concrete non-empty run. -/
theorem downloadMods_overallSuccess_witness :
    (downloadMods orch6 mods6).1.success
      = ((downloadMods orch6 mods6).1.results).all (fun o => o.success) :=
  downloadMods_overallSuccess orch6 mods6 (by decide)

/-- C9 counterexample: an empty input whose missing-mods audit write rejects
lands in the generic catch: overallSuccess is false while the AND over the
(zero) outcomes is true. -/
theorem downloadMods_overallSuccess_cex :
    (downloadMods orch9cex ([] : List ModItem)).1.success = false
    ∧ ((downloadMods orch9cex ([] : List ModItem)).1.results).all
        (fun o => o.success) = true := by
  refine ⟨by decide, by decide⟩

/-! ## Claim C3: user decline -/

/-- C3: when the missing set is non-empty and the lowercased answer is not
"y", the report is an overall failure whose outcomes are one cancellation
failure per input item, with zero exec invocations and no `downloadMod`
call. -/
theorem downloadMods_decline_spec (w : OrchWorld) (mods : List ModItem) (a : AnalyzeAcc)
    (hA : analyzeMods w mods = .ok a) (hm : a.missing ≠ [])
    (hans : jsToLower w.answer ≠ "y") :
    (downloadMods w mods).1.success = false
    ∧ (downloadMods w mods).1.results = mods.map cancelOutcome
    ∧ (downloadMods w mods).2.execCount = 0
    ∧ (downloadMods w mods).2.dlCalls = [] := by
  obtain ⟨hL, _, _⟩ := analyzeMods_ok_elim hA
  obtain ⟨h1, _, _, _⟩ := ana_basic w mods a hL
  rw [downloadMods_ok_decline w mods a hA hm hans]
  refine ⟨rfl, ?_, rfl, rfl⟩
  exact map_outcome_eq (fun p => (⟨p.1, p.2, false, false, none,
    some "Загрузка отменена пользователем"⟩ : Outcome)) h1

/-- C3 witness: one missing item and the answer "n". -/
theorem downloadMods_decline_spec_witness :
    (downloadMods orch3 mods3).1.success = false
    ∧ (downloadMods orch3 mods3).1.results = mods3.map cancelOutcome
    ∧ (downloadMods orch3 mods3).2.execCount = 0
    ∧ (downloadMods orch3 mods3).2.dlCalls = [] :=
  downloadMods_decline_spec orch3 mods3 acc3 (by rfl) (by decide) (by decide)

/-! ## Claim C4 (amended): everything already installed or cached -/

/-- C4 (amended): when every input item has a known id and is classified
Installed or CachedUncopied, AND the two audit-file writes succeed, the run
returns an all-skipped success report with no prompt, no resolver (network)
call, no `downloadMod` call and zero exec invocations. When an audit write
rejects, the run instead takes the generic catch and reports failure (see
the counterexample). -/
theorem downloadMods_allInstalled (w : OrchWorld) (mods : List ModItem)
    (h : ∀ m ∈ mods, m.steamId ≠ "0" ∧ classify w.fs m.modId m.steamId ≠ ModState.missing)
    (hw1 : w.writeFail missingModsFile = none)
    (hw2 : w.writeFail notFoundModsFile = none) :
    (downloadMods w mods).1 = { success := true, results := mods.map skipOutcome }
    ∧ (downloadMods w mods).2.execCount = 0
    ∧ (downloadMods w mods).2.resolverCalls = []
    ∧ (downloadMods w mods).2.prompted = false
    ∧ (downloadMods w mods).2.dlCalls = [] := by
  obtain ⟨pr, hL⟩ := ana_allKnown w mods h
  rw [downloadMods_ok_empty w mods ⟨mods, [], [], pr, []⟩
    (analyzeMods_ok_intro hL hw1 hw2) rfl]
  exact ⟨rfl, rfl, rfl, rfl, rfl⟩

/-- C4 witness: a single installed item, both audit writes succeeding. -/
theorem downloadMods_allInstalled_witness :
    (downloadMods orch4 mods4).1 = { success := true, results := mods4.map skipOutcome }
    ∧ (downloadMods orch4 mods4).2.execCount = 0
    ∧ (downloadMods orch4 mods4).2.resolverCalls = []
    ∧ (downloadMods orch4 mods4).2.prompted = false
    ∧ (downloadMods orch4 mods4).2.dlCalls = [] :=
  downloadMods_allInstalled orch4 mods4 (by decide) (by decide) (by decide)

/-- C4 counterexample: the claim's hypothesis holds (known id, installed),
yet because the missing-mods audit write rejects, the run returns overall
failure with generic-error outcomes instead of the claimed skipped-success
report. -/
theorem downloadMods_allInstalled_cex :
    (∀ m ∈ mods4, m.steamId ≠ "0" ∧ classify orch4cex.fs m.modId m.steamId ≠ ModState.missing)
    ∧ (downloadMods orch4cex mods4).1.success = false
    ∧ (downloadMods orch4cex mods4).1.results = mods4.map genericErrOutcome := by
  refine ⟨by decide, by decide, by decide⟩

/-! ## Claim C6 (amended): unresolved items bypass classifier and driver -/

/-- C6 (amended): an item with unknown id ("0") for which the resolver
returns NotFound (and that is not a core name, so the resolver is actually
consulted), IN A RUN WHOSE ANALYSIS COMPLETES (no other item's resolver
rejection and no audit-write rejection aborts it), lands in the `notFound`
bucket, is never probed by the classifier, is never handed to `downloadMod`,
and its block is part of the unresolved audit file write. When the analysis
aborts the unresolved audit file is never written at all (see the
counterexample). -/
theorem downloadMods_unresolved_excluded (w : OrchWorld) (mods : List ModItem)
    (a : AnalyzeAcc) (x : ModItem)
    (hA : analyzeMods w mods = .ok a)
    (hx : x ∈ mods) (hcore : isCoreName x.name = false) (h0 : x.steamId = "0")
    (hnf : (findModByName (w.search x.name) x.name).result = .notFound) :
    x ∈ a.notFound
    ∧ x ∉ a.probed
    ∧ x ∉ (downloadMods w mods).2.dlCalls
    ∧ (notFoundModsFile, renderModsFile notFoundHeader a.notFound)
        ∈ (downloadMods w mods).2.auditWrites
    ∧ modBlock x ∈ a.notFound.map modBlock := by
  obtain ⟨hL, _, _⟩ := analyzeMods_ok_elim hA
  have hxnf : x ∈ a.notFound := ana_notFound_of w mods a x hL hx hcore h0 hnf
  have hnp : x ∉ a.probed := ana_notProbed w x h0 hnf mods a hL
  obtain ⟨_, h2, _, _⟩ := ana_basic w mods a hL
  have hndl : x ∉ a.missing := fun hxm => hnp (h2.subset hxm)
  refine ⟨hxnf, hnp, ?_, ?_, List.mem_map_of_mem _ hxnf⟩
  · by_cases hme : a.missing = []
    · rw [downloadMods_ok_empty w mods a hA hme]; simp
    · by_cases hans : jsToLower w.answer = "y"
      · rw [downloadMods_ok_confirm w mods a hA hme hans]; exact hndl
      · rw [downloadMods_ok_decline w mods a hA hme hans]; simp
  · by_cases hme : a.missing = []
    · rw [downloadMods_ok_empty w mods a hA hme]; simp
    · by_cases hans : jsToLower w.answer = "y"
      · rw [downloadMods_ok_confirm w mods a hA hme hans]; simp
      · rw [downloadMods_ok_decline w mods a hA hme hans]; simp

/-- C6 witness: "Ghost" has id "0", the resolver finds nothing, the other
item "Eps" is installed, and the analysis completes. -/
theorem downloadMods_unresolved_excluded_witness :
    ghostItem ∈ acc6.notFound
    ∧ ghostItem ∉ acc6.probed
    ∧ ghostItem ∉ (downloadMods orch6 mods6).2.dlCalls
    ∧ (notFoundModsFile, renderModsFile notFoundHeader acc6.notFound)
        ∈ (downloadMods orch6 mods6).2.auditWrites
    ∧ modBlock ghostItem ∈ acc6.notFound.map modBlock :=
  downloadMods_unresolved_excluded orch6 mods6 acc6 ghostItem (by rfl) (by decide)
    (by decide) (by decide) (by decide)

/-- C6 counterexample: "Ghost" has id "0" and the resolver returns NotFound
for it, but the later item "Doom" hits a transport error, the analysis
aborts, and NO audit file is written — in particular "Ghost" is not written
to the unresolved-mods audit file, refuting the claim's unconditional "is
written to the unresolved audit file". -/
theorem downloadMods_unresolved_excluded_cex :
    ghostItem ∈ mods6cex
    ∧ ghostItem.steamId = "0"
    ∧ (findModByName (orch6cex.search ghostItem.name) ghostItem.name).result
        = FindResult.notFound
    ∧ (downloadMods orch6cex mods6cex).2.auditWrites = [] := by
  refine ⟨by decide, by decide, by decide, by decide⟩

/-! ## Claim C10 (amended): unresolved items get skipped-success outcomes -/

/-- C10 (amended): under pairwise-distinct localIds, an item the resolver
failed to resolve (member of the `notFound` bucket) still receives a success
outcome with `skipped = true` and reason "Уже установлен" ("already
installed"), both on the empty-missing early return and on the confirmed
path, whose filter then excludes only missing items, not unresolved ones.
With duplicate localIds the unresolved item can instead be dropped with no
outcome at all (see the counterexample). -/
theorem downloadMods_unresolved_skipped (w : OrchWorld) (mods : List ModItem)
    (a : AnalyzeAcc) (x : ModItem)
    (hA : analyzeMods w mods = .ok a) (hnd : (mods.map ModItem.modId).Nodup)
    (hx : x ∈ a.notFound)
    (hpath : a.missing = [] ∨ jsToLower w.answer = "y") :
    (⟨x.modId, x.name, true, true, some "Уже установлен", none⟩ : Outcome)
      ∈ (downloadMods w mods).1.results := by
  obtain ⟨hL, _, _⟩ := analyzeMods_ok_elim hA
  obtain ⟨h1, h2, h3, h4⟩ := ana_basic w mods a hL
  have hxi : x ∈ a.items := h4.subset hx
  have hskip : skipOutcome x
      = ⟨x.modId, x.name, true, true, some "Уже установлен", none⟩ := rfl
  by_cases hme : a.missing = []
  · rw [downloadMods_ok_empty w mods a hA hme]
    exact hskip ▸ List.mem_map_of_mem _ hxi
  · have hans : jsToLower w.answer = "y" := hpath.resolve_left hme
    rw [downloadMods_ok_confirm w mods a hA hme hans]
    have hdisj := ana_disjoint w mods a hL hnd
    have hpred : (!(a.missing.any (fun mm => mm.modId == x.modId))) = true := by
      simp only [Bool.not_eq_true', List.any_eq_false]
      intro mm hmm
      simp only [beq_iff_eq]
      exact hdisj mm (h2.subset hmm) x hx
    have hmem : x ∈ a.items.filter
        (fun m => !(a.missing.any (fun mm => mm.modId == m.modId))) :=
      List.mem_filter.mpr ⟨hxi, hpred⟩
    refine List.mem_append.mpr (Or.inr ?_)
    exact hskip ▸ List.mem_map_of_mem _ hmem

/-- C10 witness: the unresolved "Ghost" gets the skipped-success outcome and
the run's overall success is still true. -/
theorem downloadMods_unresolved_skipped_witness :
    ((⟨ghostItem.modId, ghostItem.name, true, true, some "Уже установлен", none⟩ : Outcome)
      ∈ (downloadMods orch6 mods6).1.results)
    ∧ (downloadMods orch6 mods6).1.success = true :=
  ⟨downloadMods_unresolved_skipped orch6 mods6 acc6 ghostItem (by rfl) (by decide)
      (by decide) (Or.inl (by decide)), by decide⟩

/-- C10 counterexample: the unresolved "Ghost" shares localId "m1" with the
missing "Dup"; on the confirmed path the localId filter drops "Ghost"
entirely — NO outcome mentions it, in particular not the claimed
skipped-success one. -/
theorem downloadMods_unresolved_skipped_cex :
    ghostItem ∈ mods10cex
    ∧ (findModByName (orch10cex.search ghostItem.name) ghostItem.name).result
        = FindResult.notFound
    ∧ ((downloadMods orch10cex mods10cex).1.results).all
        (fun o => !(o.name == "Ghost")) = true := by
  refine ⟨by decide, by decide, by decide⟩
